import Mathlib

/-!
Verification of the rate-limited paginated fetcher and related scripts of
the nexa-github repository, shallowly embedded in Lean.

The embedding follows the Python source:
* `list_issues.py`: `get_project_items` (cache check, pagination loop with
  rate-limit retry, per-page filter, cache write), `wait_with_backoff`,
  `handle_rate_limit_error`, `update_item_status`;
* `migrate.py`: `exponential_backoff`, the status mapping in
  `update_item_status`, the retry counter of `migrate_issues`;
* `nexa_github/github_utils.py`: `GitHubManager.delete_old_branch`.

Network responses are modelled by explicit oracles (lists of responses /
attempt outcomes); real durations by rationals; timestamps by integers.
-/

namespace NexaGithub

/-! ### Strings: substring containment and lowercasing

Python's `pat in s` on strings is substring containment; `str.lower()`
maps each character to lower case. -/

/-- Does `p` occur at the head of `s`? (character-list version) -/
def listStarts : List Char → List Char → Bool
  | _, [] => true
  | [], _ :: _ => false
  | a :: s, b :: p => a == b && listStarts s p

/-- Does `p` occur anywhere inside `s`? (character-list version) -/
def containsSub : List Char → List Char → Bool
  | [], p => p.isEmpty
  | a :: s, p => listStarts (a :: s) p || containsSub s p

/-- Python's `pat in s` for strings. -/
def strContains (s pat : String) : Bool :=
  containsSub s.toList pat.toList

/-- Python's `s.lower()`. -/
def strLower (s : String) : String :=
  String.mk (s.toList.map Char.toLower)

/-! ### Data model of project items (`list_issues.py`) -/

/-- The `content` object of a project item, as used by the filter in
`get_project_items` (only the fields the filter touches matter). -/
structure Content where
  title : String
  body : String
deriving Repr, DecidableEq

/-- A project item as returned by the GraphQL query in
`get_project_items`: an id, an optional single-select status name
(`item.get('status', {}).get('name')`), and an optional content object
(`item.get('content', {})`, skipped by the loop when falsy). -/
structure Item where
  id : String
  status : Option String
  content : Option Content
deriving Repr, DecidableEq

/-- The marker substring that the filter requires in the body. -/
def statusDoneMarker : String := "ステータス: Done"

/-- The per-item filter of `get_project_items`: skip items with falsy
content, keep those whose status name is `'Todo'` and whose body contains
the marker substring. -/
def itemPred (item : Item) : Bool :=
  match item.content with
  | none => false
  | some c => item.status == some "Todo" && strContains c.body statusDoneMarker

/-! ### Backoff parameters and wait computation (`list_issues.py`) -/

def MAX_RETRIES : Nat := 10
def INITIAL_WAIT : ℚ := 3600
def MAX_WAIT : ℚ := 21600
def BACKOFF_FACTOR : ℚ := 3 / 2

/-- `wait_with_backoff` of `list_issues.py`:
`wait_time = min(INITIAL_WAIT * (BACKOFF_FACTOR ** retry_count), MAX_WAIT)`.
All quantities involved are exactly representable, so the rational value
coincides with the Python float computation. -/
def wait_with_backoff (retry_count : Nat) : ℚ :=
  min (INITIAL_WAIT * BACKOFF_FACTOR ^ retry_count) MAX_WAIT

/-- `exponential_backoff` of `migrate.py`:
`wait_time = min(1 * (2 ** attempt), max_wait_time)` with
`max_wait_time = 86400`. -/
def exponential_backoff (attempt : Nat) : ℚ :=
  min (1 * 2 ^ attempt) 86400

/-- `'rate limit exceeded' in str(e).lower()` — the rate-limit test of the
pagination loop in `get_project_items`. -/
def isRateLimitMsg (msg : String) : Bool :=
  strContains (strLower msg) "rate limit exceeded"

/-- `'RATE_LIMITED' in str(e)` — the rate-limit test of
`handle_rate_limit_error`. -/
def isRateLimitedCode (msg : String) : Bool :=
  strContains msg "RATE_LIMITED"

/-! ### The status mapping of `migrate.py`'s `update_item_status` -/

/-- The `status_mapping` dictionary literal of `migrate.py`. -/
def status_mapping (jira : String) : Option String :=
  if jira = "Open" then some "Todo"
  else if jira = "Reopened" then some "Todo"
  else if jira = "In Progress" then some "In Progress"
  else if jira = "Done" then some "Done"
  else if jira = "Resolved" then some "Done"
  else if jira = "Closed" then some "Done"
  else none

/-- `github_status = status_mapping.get(jira_status, 'Todo')` in
`migrate.py`'s `update_item_status`. -/
def migrate_github_status (jira : String) : String :=
  (status_mapping jira).getD "Todo"

/-! ### `GitHubManager.delete_old_branch` (`github_utils.py`)

Timestamps are integers (seconds); `timedelta(days=days_old)` becomes
`days_old * 86400`. The two calls that can raise (`get_repo`/`get_git_ref`
lookup, and `ref.delete()`) are oracles. The second component of the
result records whether the `ref.delete()` call was issued. -/

structure BranchInfo where
  name : String
  last_commit_date : Int
deriving Repr, DecidableEq

structure DeleteResult where
  repo : String
  branch : String
  status : String
  message : String
deriving Repr, DecidableEq

inductive RefLookup where
  | ok
  | err (msg : String)
deriving Repr, DecidableEq

inductive DelOutcome where
  | ok
  | err (msg : String)
deriving Repr, DecidableEq

def delete_old_branch (repo_full_name : String) (branch_info : BranchInfo)
    (days_old : Int) (dry_run : Bool) (now : Int)
    (lookup : RefLookup) (del : DelOutcome) : DeleteResult × Bool :=
  let cutoff_date := now - days_old * 86400
  if cutoff_date ≤ branch_info.last_commit_date then
    (⟨repo_full_name, branch_info.name, "skipped", "最終更新が新しい"⟩, false)
  else
    match lookup with
    | .err m => (⟨repo_full_name, branch_info.name, "error", m⟩, false)
    | .ok =>
      if dry_run = false then
        match del with
        | .ok => (⟨repo_full_name, branch_info.name, "deleted", "削除完了"⟩, true)
        | .err m => (⟨repo_full_name, branch_info.name, "error", m⟩, true)
      else
        (⟨repo_full_name, branch_info.name, "simulation", "削除シミュレーション完了"⟩, false)

/-! ### The pagination loop of `get_project_items` (`list_issues.py`)

The upstream GraphQL endpoint is modelled by an oracle: a list of
responses, consumed one per request. Each response is either a page
(`items`, `pageInfo.hasNextPage`, `pageInfo.endCursor`) or a raised
`TransportQueryError` carrying its message. -/

inductive PageResp where
  | ok (items : List Item) (hasNextPage : Bool) (endCursor : Option String)
  | queryError (msg : String)
deriving Repr, DecidableEq

/-- The mutable state of the `while has_next_page:` loop:
`all_items`, `after`, `has_next_page`. -/
structure LoopState where
  all_items : List Item
  after : Option String
  has_next_page : Bool
deriving Repr, DecidableEq

/-- Outcome of one loop iteration: either continue with a new state
(recording the argument of a `wait_with_backoff` call, if one happened),
or re-raise the error to the caller. -/
inductive StepOut where
  | next (s : LoopState) (waited : Option Nat)
  | raised (msg : String)
deriving Repr, DecidableEq

/-- One iteration of the pagination loop body of `get_project_items`:
on a successful page, append the filtered items and advance the cursor;
on a `TransportQueryError` whose lowercased message contains
`'rate limit exceeded'`, call `wait_with_backoff(0)` and leave the state
(cursor and accumulated items) unchanged; on any other error, re-raise. -/
def pageFetchStep (s : LoopState) (resp : PageResp) : StepOut :=
  match resp with
  | .ok items hnp ec => .next ⟨s.all_items ++ items.filter itemPred, ec, hnp⟩ none
  | .queryError msg =>
    if isRateLimitMsg msg then .next s (some 0)
    else .raised msg

instance {ε α : Type} [DecidableEq ε] [DecidableEq α] :
    DecidableEq (Except ε α) := fun a b =>
  match a, b with
  | .ok x, .ok y =>
    if h : x = y then .isTrue (by rw [h]) else .isFalse (by simp [h])
  | .ok _, .error _ => .isFalse (by simp)
  | .error _, .ok _ => .isFalse (by simp)
  | .error x, .error y =>
    if h : x = y then .isTrue (by rw [h]) else .isFalse (by simp [h])

/-- Aggregate outcome of running the pagination loop: the value returned
(or the error message raised), the number of requests issued, and the
sequence of arguments passed to `wait_with_backoff`. -/
structure RunOut where
  result : Except String (List Item)
  requests : Nat
  waitArgs : List Nat
deriving Repr, DecidableEq

/-- The whole `while has_next_page:` loop of `get_project_items`, run
against the oracle `net`; `none` means the oracle was exhausted before
the loop finished (the real loop would still be requesting pages). -/
def paginationLoop (net : List PageResp) (s : LoopState) : Option RunOut :=
  if s.has_next_page = false then some ⟨.ok s.all_items, 0, []⟩
  else
    match net with
    | [] => none
    | r :: rs =>
      match pageFetchStep s r with
      | .raised m => some ⟨.error m, 1, []⟩
      | .next s' w =>
        (paginationLoop rs s').map fun o =>
          ⟨o.result, o.requests + 1, w.toList ++ o.waitArgs⟩

/-- The loop starts with no accumulated items, no cursor, and
`has_next_page = True`. -/
def initLoopState : LoopState := ⟨[], none, true⟩

/-- Truthiness of the value loaded from the cache file (`None` when the
file does not exist): `if cached_data:` keeps only a non-empty list. -/
def cacheTruthy : Option (List Item) → Bool
  | none => false
  | some l => !l.isEmpty

/-- Observable outcome of a `get_project_items` call: the value returned
(or error raised), the cache file contents afterwards, whether any
network request was issued, and the backoff-wait arguments. -/
structure FetchOutcome where
  result : Except String (List Item)
  cacheAfter : Option (List Item)
  networkUsed : Bool
  waitArgs : List Nat
deriving Repr, DecidableEq

/-- `get_project_items(project_id, force_refresh)` of `list_issues.py`:
unless `force_refresh` is set, a truthy cached value is returned as-is
with no network call; otherwise the pagination loop runs and, on success
only, `save_cache` overwrites the cache with the accumulated result. -/
def get_project_items (cache : Option (List Item)) (force_refresh : Bool)
    (net : List PageResp) : Option FetchOutcome :=
  if !force_refresh && cacheTruthy cache then
    some ⟨.ok (cache.getD []), cache, false, []⟩
  else
    match paginationLoop net initLoopState with
    | none => none
    | some o =>
      match o.result with
      | .ok items => some ⟨.ok items, some items, true, o.waitArgs⟩
      | .error m => some ⟨.error m, cache, true, o.waitArgs⟩

/-- An error-free oracle delivering the item stream split into the given
pages: every page reports `hasNextPage = True` except the last. -/
def mkNet : List (List Item) → List PageResp
  | [] => []
  | [p] => [.ok p false none]
  | p :: ps => .ok p true (some "cursor") :: mkNet ps

/-! ### The ceiling-bounded retry loop of `update_item_status`
(`list_issues.py`) and the migration batch loop (`migrate.py`) -/

/-- Outcome of one pass of the `while retry_count < MAX_RETRIES:` loop
body of `update_item_status`: success (`return True`), a missing status
field/option (`return False`), a raised `TransportQueryError` with its
message, or any other exception (`return False`). -/
inductive OpAttempt where
  | ok
  | failVal
  | transportError (msg : String)
  | otherError
deriving Repr, DecidableEq

/-- `handle_rate_limit_error(e, retry_count)` of `list_issues.py`:
whether to retry, and the argument of the `wait_with_backoff` call when
one was made. -/
def handle_rate_limit_error (msg : String) (retry_count : Nat) :
    Bool × Option Nat :=
  if isRateLimitedCode msg then
    if retry_count < MAX_RETRIES then (true, some retry_count)
    else (false, none)
  else (false, none)

/-- The retry loop of `update_item_status` (`list_issues.py`), run
against an oracle of per-attempt outcomes: the Boolean value returned
and the sequence of `wait_with_backoff` arguments (`none` when the
oracle is exhausted while the loop still runs). -/
def update_item_status_run (attempts : List OpAttempt) (retry_count : Nat) :
    Option (Bool × List Nat) :=
  if retry_count < MAX_RETRIES then
    match attempts with
    | [] => none
    | a :: rest =>
      match a with
      | .ok => some (true, [])
      | .failVal => some (false, [])
      | .otherError => some (false, [])
      | .transportError msg =>
        match handle_rate_limit_error msg retry_count with
        | (true, w) =>
          (update_item_status_run rest (retry_count + 1)).map
            fun p => (p.1, w.toList ++ p.2)
        | (false, _) => some (false, [])
  else some (false, [])

/-- The batch loop of `list_issues.py`'s `main`: every item's status
update is attempted in turn (`update_item_status` returns a Boolean and
never raises, and the loop catches exceptions and continues anyway). -/
def runBatch : List (List OpAttempt) → List (Option Bool)
  | [] => []
  | a :: rest => ((update_item_status_run a 0).map Prod.fst) :: runBatch rest

/-- Outcome of handling one JIRA issue in `migrate_issues`'s loop
(`migrate.py`): skipped as already migrated, created successfully, an
exception whose message contains `'rate limit'`, or any other
exception. -/
inductive MigAttempt where
  | skip
  | created
  | exnRate
  | exnFatal
deriving Repr, DecidableEq

/-- The loop over issues in `migrate_issues` (`migrate.py`): `attempt`
is reset to 0 after a successful creation and, on a rate-limit error,
incremented before the `exponential_backoff(attempt)` call (the loop
then moves on to the next issue); a non-rate-limit error is re-raised,
aborting the batch. Returns the final outcome and the sequence of
arguments passed to `exponential_backoff`. -/
def migrate_loop : List MigAttempt → Nat → Except String Unit × List Nat
  | [], _ => (.ok (), [])
  | a :: rest, attempt =>
    match a with
    | .skip => migrate_loop rest attempt
    | .created => migrate_loop rest 0
    | .exnRate =>
      let p := migrate_loop rest (attempt + 1)
      (p.1, (attempt + 1) :: p.2)
    | .exnFatal => (.error "fatal", [])

/-! ## Theorems -/

lemma paginationLoop_stop (net : List PageResp) (s : LoopState)
    (h : s.has_next_page = false) :
    paginationLoop net s = some ⟨.ok s.all_items, 0, []⟩ := by
  unfold paginationLoop
  simp [h]

lemma paginationLoop_nil (s : LoopState) (h : s.has_next_page = true) :
    paginationLoop [] s = none := by
  unfold paginationLoop
  simp [h]

lemma paginationLoop_cons (r : PageResp) (rs : List PageResp) (s : LoopState)
    (h : s.has_next_page = true) :
    paginationLoop (r :: rs) s =
      match pageFetchStep s r with
      | .raised m => some ⟨.error m, 1, []⟩
      | .next s' w =>
        (paginationLoop rs s').map fun o =>
          ⟨o.result, o.requests + 1, w.toList ++ o.waitArgs⟩ := by
  conv_lhs => unfold paginationLoop
  simp [h]

/-- Running the loop against an error-free page oracle accumulates the
filtered items of every page, in order. -/
lemma paginationLoop_mkNet (ps : List (List Item)) :
    ∀ (p acc : List Item) (c : Option String),
      paginationLoop (mkNet (p :: ps)) ⟨acc, c, true⟩ =
        some ⟨.ok (acc ++ ((p :: ps).flatten).filter itemPred),
              (p :: ps).length, []⟩ := by
  induction ps with
  | nil =>
    intro p acc c
    rw [show mkNet [p] = [.ok p false none] from rfl,
        paginationLoop_cons _ _ _ rfl]
    simp only [pageFetchStep]
    rw [paginationLoop_stop _ _ rfl]
    simp
  | cons q ps ih =>
    intro p acc c
    rw [show mkNet (p :: q :: ps) = .ok p true (some "cursor") :: mkNet (q :: ps)
          from rfl,
        paginationLoop_cons _ _ _ rfl]
    simp only [pageFetchStep]
    rw [ih q (acc ++ p.filter itemPred) (some "cursor")]
    simp [List.filter_append]

/-- C1: with no usable cache, `get_project_items` returns exactly the
items accepted by the filter predicate, in arrival order (the filter of
the concatenated page stream), and the result is the same for any two
ways of splitting the same item stream into pages; no item failing the
predicate appears (it is a `List.filter`). -/
theorem get_project_items_filter_join (cache : Option (List Item))
    (force : Bool) (pages pages2 : List (List Item))
    (hcache : force = true ∨ cacheTruthy cache = false)
    (h1 : pages ≠ []) (h2 : pages2 ≠ []) (hjoin : pages.flatten = pages2.flatten) :
    get_project_items cache force (mkNet pages) =
      some ⟨.ok (pages.flatten.filter itemPred),
            some (pages.flatten.filter itemPred), true, []⟩ ∧
    get_project_items cache force (mkNet pages2) =
      get_project_items cache force (mkNet pages) := by
  have hcond : (!force && cacheTruthy cache) = false := by
    rcases hcache with h | h
    · subst h; simp
    · simp [h]
  have key : ∀ (pp : List (List Item)), pp ≠ [] →
      get_project_items cache force (mkNet pp) =
        some ⟨.ok (pp.flatten.filter itemPred),
              some (pp.flatten.filter itemPred), true, []⟩ := by
    intro pp hpp
    match pp with
    | p :: ps =>
      unfold get_project_items
      rw [hcond]
      rw [show initLoopState = ⟨[], none, true⟩ from rfl,
          paginationLoop_mkNet ps p [] none]
      simp
  exact ⟨key pages h1, by rw [key pages h1, key pages2 h2, hjoin]⟩

/-- Witness for C1: a concrete two-page stream and its one-page
re-splitting give the same filtered result. -/
theorem get_project_items_filter_join_witness :
    get_project_items none false
        (mkNet [[⟨"i1", some "Todo", some ⟨"t1", "ステータス: Done"⟩⟩],
                [⟨"i2", some "Done", some ⟨"t2", "ステータス: Done"⟩⟩]]) =
      some ⟨.ok [⟨"i1", some "Todo", some ⟨"t1", "ステータス: Done"⟩⟩],
            some [⟨"i1", some "Todo", some ⟨"t1", "ステータス: Done"⟩⟩],
            true, []⟩ ∧
    get_project_items none false
        (mkNet [[⟨"i1", some "Todo", some ⟨"t1", "ステータス: Done"⟩⟩,
                 ⟨"i2", some "Done", some ⟨"t2", "ステータス: Done"⟩⟩]]) =
      get_project_items none false
        (mkNet [[⟨"i1", some "Todo", some ⟨"t1", "ステータス: Done"⟩⟩],
                [⟨"i2", some "Done", some ⟨"t2", "ステータス: Done"⟩⟩]]) := by
  have h := get_project_items_filter_join none false
    [[⟨"i1", some "Todo", some ⟨"t1", "ステータス: Done"⟩⟩],
     [⟨"i2", some "Done", some ⟨"t2", "ステータス: Done"⟩⟩]]
    [[⟨"i1", some "Todo", some ⟨"t1", "ステータス: Done"⟩⟩,
      ⟨"i2", some "Done", some ⟨"t2", "ステータス: Done"⟩⟩]]
    (Or.inr rfl) (by decide) (by decide) (by decide)
  refine ⟨?_, h.2⟩
  rw [h.1]
  decide

/-- C2 (amended): when the cache snapshot exists, is non-empty, and
refresh is not forced, `get_project_items` returns the cached sequence
unchanged with no network call; hence a second call under the same
conditions returns an identical result. -/
theorem get_project_items_cached_nonempty (l : List Item) (hl : l ≠ [])
    (net : List PageResp) :
    get_project_items (some l) false net = some ⟨.ok l, some l, false, []⟩ ∧
    ∀ net2, get_project_items (some l) false net2 =
      get_project_items (some l) false net := by
  have htr : cacheTruthy (some l) = true := by
    cases l with
    | nil => exact absurd rfl hl
    | cons a t => rfl
  have key : ∀ net', get_project_items (some l) false net' =
      some ⟨.ok l, some l, false, []⟩ := by
    intro net'
    simp [get_project_items, htr]
  exact ⟨key net, fun net2 => by rw [key net2, key net]⟩

/-- Witness for C2 at a concrete one-item snapshot. -/
theorem get_project_items_cached_nonempty_witness :
    get_project_items (some [⟨"i", none, none⟩]) false [] =
      some ⟨.ok [⟨"i", none, none⟩], some [⟨"i", none, none⟩], false, []⟩ :=
  (get_project_items_cached_nonempty [⟨"i", none, none⟩] (by decide) []).1

/-- Counterexample to C2 as stated: with an existing cache snapshot that
is an empty JSON array and refresh not forced, `get_project_items` does
issue a network call. -/
theorem get_project_items_empty_snapshot_hits_network :
    (get_project_items (some []) false [PageResp.ok [] false none]).map
        FetchOutcome.networkUsed = some true ∧
    (get_project_items (some []) false [PageResp.ok [] false none]).map
        FetchOutcome.networkUsed ≠ some false := by
  decide

/-- C9: an existing cache file containing an empty array is not served:
`get_project_items` behaves exactly as if there were no cache at all
(a full network refetch), and in particular never reports a
cache-only (network-free) outcome. -/
theorem get_project_items_empty_cache_refetch (net : List PageResp) :
    (get_project_items (some []) false net).map
        (fun o => (o.result, o.networkUsed, o.waitArgs)) =
      (get_project_items none false net).map
        (fun o => (o.result, o.networkUsed, o.waitArgs)) ∧
    (get_project_items (some []) false net).map FetchOutcome.networkUsed ≠
      some false := by
  unfold get_project_items
  simp only [cacheTruthy, List.isEmpty_nil, Bool.not_true, Bool.and_false,
    Bool.false_eq_true, if_false]
  cases hpl : paginationLoop net initLoopState with
  | none => simp
  | some o =>
    cases ho : o.result with
    | ok items => simp [ho]
    | error m => simp [ho]

/-- Witness for C9 at a concrete one-page network. -/
theorem get_project_items_empty_cache_refetch_witness :
    (get_project_items (some []) false [PageResp.ok [] false none]).map
        (fun o => (o.result, o.networkUsed, o.waitArgs)) =
      (get_project_items none false [PageResp.ok [] false none]).map
        (fun o => (o.result, o.networkUsed, o.waitArgs)) ∧
    (get_project_items (some []) false [PageResp.ok [] false none]).map
        FetchOutcome.networkUsed ≠ some false :=
  get_project_items_empty_cache_refetch [PageResp.ok [] false none]

/-- C4: in every page-fetch step of the pagination loop, a recognized
rate-limit error is not raised to the caller: the loop waits (with
backoff argument 0) and retries the same cursor — the overall outcome is
that of re-running the loop from the unchanged state, so the page is
neither skipped nor partially consumed; any non-rate-limit error is
propagated immediately after that single request, with no retry. -/
theorem pageFetch_rate_limit_retry (s : LoopState) (msg : String)
    (rest : List PageResp) (h : s.has_next_page = true) :
    (isRateLimitMsg msg = true →
      paginationLoop (.queryError msg :: rest) s =
        (paginationLoop rest s).map fun o =>
          ⟨o.result, o.requests + 1, 0 :: o.waitArgs⟩) ∧
    (isRateLimitMsg msg = false →
      paginationLoop (.queryError msg :: rest) s =
        some ⟨.error msg, 1, []⟩) := by
  constructor
  · intro hrl
    rw [paginationLoop_cons _ _ _ h]
    simp only [pageFetchStep, hrl, if_true]
    cases h' : paginationLoop rest s <;> simp [h']
  · intro hrl
    rw [paginationLoop_cons _ _ _ h]
    simp [pageFetchStep, hrl]

/-- Witness for C4: a rate-limited first request is retried and the run
still succeeds with one extra request and one zero-argument wait; a
non-rate-limit error is raised on its own request. -/
theorem pageFetch_rate_limit_retry_witness :
    paginationLoop
        [.queryError "403: rate limit exceeded", .ok [] false none]
        initLoopState = some ⟨.ok [], 2, [0]⟩ ∧
    paginationLoop [.queryError "not found"] initLoopState =
      some ⟨.error "not found", 1, []⟩ := by
  constructor
  · have h := (pageFetch_rate_limit_retry initLoopState
      "403: rate limit exceeded" [.ok [] false none] rfl).1 (by decide)
    rw [h]
    decide
  · exact (pageFetch_rate_limit_retry initLoopState "not found" [] rfl).2
      (by decide)

/-- Once the loop raises, the responses already consumed fully determine
the outcome: anything beyond them in the oracle is never requested. -/
lemma paginationLoop_error_prefix :
    ∀ (net : List PageResp) (s : LoopState) (o : RunOut) (m : String),
      paginationLoop net s = some o → o.result = .error m →
      ∀ extra, paginationLoop (net.take o.requests ++ extra) s = some o := by
  intro net
  induction net with
  | nil =>
    intro s o m hrun hres extra
    by_cases h : s.has_next_page = false
    · rw [paginationLoop_stop _ _ h] at hrun
      cases hrun
      simp at hres
    · have h' : s.has_next_page = true := by
        revert h; cases s.has_next_page <;> simp
      rw [paginationLoop_nil _ h'] at hrun
      exact absurd hrun (by simp)
  | cons r rs ih =>
    intro s o m hrun hres extra
    by_cases h : s.has_next_page = false
    · rw [paginationLoop_stop _ _ h] at hrun
      cases hrun
      simp at hres
    · have h' : s.has_next_page = true := by
        revert h; cases s.has_next_page <;> simp
      rw [paginationLoop_cons _ _ _ h'] at hrun
      cases hstep : pageFetchStep s r with
      | raised m' =>
        rw [hstep] at hrun
        cases hrun
        rw [show (RunOut.mk (.error m') 1 []).requests = 1 from rfl,
            List.take_succ_cons, List.take_zero]
        rw [show (r :: []) ++ extra = r :: extra from rfl,
            paginationLoop_cons _ _ _ h', hstep]
      | next s' w =>
        rw [hstep] at hrun
        replace hrun : (paginationLoop rs s').map
            (fun o => RunOut.mk o.result (o.requests + 1)
              (w.toList ++ o.waitArgs)) = some o := hrun
        cases hrec : paginationLoop rs s' with
        | none => rw [hrec] at hrun; exact absurd hrun (by simp)
        | some o' =>
          rw [hrec] at hrun
          simp only [Option.map_some'] at hrun
          cases hrun
          have hres' : o'.result = .error m := hres
          rw [show (RunOut.mk o'.result (o'.requests + 1)
                (w.toList ++ o'.waitArgs)).requests = o'.requests + 1 from rfl,
              List.take_succ_cons, List.cons_append,
              paginationLoop_cons _ _ _ h', hstep]
          show (paginationLoop (List.take o'.requests rs ++ extra) s').map
              (fun o => RunOut.mk o.result (o.requests + 1)
                (w.toList ++ o.waitArgs)) =
            some ⟨o'.result, o'.requests + 1, w.toList ++ o'.waitArgs⟩
          rw [ih s' o' m hrec hres' extra]
          rfl

/-- C7: if a page fetch fails with a non-rate-limit error, pagination
stops immediately — the outcome is fully determined by the requests
already made, so no further page is ever requested — the error
propagates, and the on-disk cache is left unchanged: no partial cache
write happens on a fatal failure. -/
theorem fetch_fatal_error_no_partial_cache (net : List PageResp)
    (o : RunOut) (m : String) (cache : Option (List Item))
    (hrun : paginationLoop net initLoopState = some o)
    (hres : o.result = .error m) :
    get_project_items cache true net =
      some ⟨.error m, cache, true, o.waitArgs⟩ ∧
    ∀ extra, paginationLoop (net.take o.requests ++ extra) initLoopState =
      some o := by
  refine ⟨?_, paginationLoop_error_prefix net initLoopState o m hrun hres⟩
  obtain ⟨res, req, ws⟩ := o
  obtain rfl : res = .error m := hres
  simp [get_project_items, hrun]

/-- Witness for C7: a fatal error on the second of three pages aborts
the run after two requests, leaves a pre-existing cache untouched, and
the third page is never requested (the outcome is the same whatever
responses follow the fatal one). -/
theorem fetch_fatal_error_no_partial_cache_witness :
    get_project_items (some [⟨"c0", none, none⟩]) true
        [.ok [] true (some "c"), .queryError "bad credentials",
         .ok [] false none] =
      some ⟨.error "bad credentials", some [⟨"c0", none, none⟩], true, []⟩ ∧
    paginationLoop
        (([.ok [] true (some "c"), .queryError "bad credentials",
           .ok [] false none] : List PageResp).take 2 ++
          [.ok [⟨"x", none, none⟩] false none])
        initLoopState = some ⟨.error "bad credentials", 2, []⟩ := by
  have h := fetch_fatal_error_no_partial_cache
    [.ok [] true (some "c"), .queryError "bad credentials", .ok [] false none]
    ⟨.error "bad credentials", 2, []⟩ "bad credentials"
    (some [⟨"c0", none, none⟩]) (by decide) rfl
  exact ⟨h.1, h.2 [.ok [⟨"x", none, none⟩] false none]⟩

/-- C3: the backoff wait for attempt `n` equals
`min(initial_wait * backoff_factor^n, max_wait)` with the `list_issues.py`
parameters (3600, 1.5, 21600); the sequence of waits over consecutive
failures is nondecreasing and never exceeds `max_wait`. The same holds
for `migrate.py`'s `exponential_backoff` with parameters (1, 2, 86400). -/
theorem wait_with_backoff_spec (n : Nat) :
    wait_with_backoff n = min (3600 * (3 / 2 : ℚ) ^ n) 21600 ∧
    wait_with_backoff n ≤ wait_with_backoff (n + 1) ∧
    wait_with_backoff n ≤ 21600 ∧
    exponential_backoff n ≤ exponential_backoff (n + 1) ∧
    exponential_backoff n ≤ 86400 := by
  refine ⟨rfl, ?_, ?_, ?_, ?_⟩
  · refine min_le_min (mul_le_mul_of_nonneg_left ?_ (by norm_num [INITIAL_WAIT])) le_rfl
    exact pow_le_pow_right₀ (by norm_num [BACKOFF_FACTOR]) (Nat.le_succ n)
  · exact min_le_right _ _
  · refine min_le_min (mul_le_mul_of_nonneg_left ?_ (by norm_num)) le_rfl
    exact pow_le_pow_right₀ (by norm_num) (Nat.le_succ n)
  · exact min_le_right _ _

/-- C8: every JIRA status string outside the mapping's six keys is
silently sent to the GitHub status `'Todo'` by `migrate.py`'s
`update_item_status`. -/
theorem migrate_unmapped_status_defaults_todo (s : String)
    (h : s ∉ (["Open", "Reopened", "In Progress", "Done", "Resolved",
               "Closed"] : List String)) :
    migrate_github_status s = "Todo" := by
  simp only [List.mem_cons, List.mem_singleton, not_or] at h
  obtain ⟨h1, h2, h3, h4, h5, h6⟩ := h
  simp [migrate_github_status, status_mapping, h1, h2, h3, h4, h5, h6]

/-- Witness for C8 at the concrete unmapped status `"Blocked"`. -/
theorem migrate_unmapped_status_defaults_todo_witness :
    migrate_github_status "Blocked" = "Todo" :=
  migrate_unmapped_status_defaults_todo "Blocked" (by decide)

/-- C10: `delete_old_branch` never issues the delete call when `dry_run`
is true (and then reports `skipped`, `simulation` or `error`), and for a
branch whose last commit is on or after `now - days_old` days it reports
`skipped` without attempting deletion, regardless of `dry_run`. -/
theorem delete_old_branch_safe (repo : String) (b : BranchInfo)
    (days_old now : Int) (dry_run : Bool) (lookup : RefLookup)
    (del : DelOutcome) :
    (dry_run = true →
      (delete_old_branch repo b days_old dry_run now lookup del).2 = false ∧
      (delete_old_branch repo b days_old dry_run now lookup del).1.status ∈
        (["skipped", "simulation", "error"] : List String)) ∧
    (now - days_old * 86400 ≤ b.last_commit_date →
      (delete_old_branch repo b days_old dry_run now lookup del).1.status
          = "skipped" ∧
      (delete_old_branch repo b days_old dry_run now lookup del).2 = false) := by
  constructor
  · rintro rfl
    by_cases hc : now - days_old * 86400 ≤ b.last_commit_date
    · simp [delete_old_branch, hc]
    · cases lookup with
      | err m => simp [delete_old_branch, hc]
      | ok => simp [delete_old_branch, hc]
  · intro hnew
    simp [delete_old_branch, hnew]

/-- Witness for C10: a fresh branch under `dry_run = true` is skipped and
no delete call is issued. -/
theorem delete_old_branch_safe_witness :
    (delete_old_branch "NexA-LLC/repo" ⟨"devin/x", 1000000⟩ 4 true 1000000
        RefLookup.ok DelOutcome.ok).2 = false ∧
    (delete_old_branch "NexA-LLC/repo" ⟨"devin/x", 1000000⟩ 4 true 1000000
        RefLookup.ok DelOutcome.ok).1.status = "skipped" :=
  ⟨((delete_old_branch_safe "NexA-LLC/repo" ⟨"devin/x", 1000000⟩ 4 1000000
      true RefLookup.ok DelOutcome.ok).1 rfl).1,
   ((delete_old_branch_safe "NexA-LLC/repo" ⟨"devin/x", 1000000⟩ 4 1000000
      true RefLookup.ok DelOutcome.ok).2 (by norm_num)).1⟩

/-! ### Retry-ceiling and counter lemmas (C5, C6) -/

lemma update_run_ceiling (attempts : List OpAttempt) (rc : Nat)
    (h : ¬ rc < MAX_RETRIES) :
    update_item_status_run attempts rc = some (false, []) := by
  unfold update_item_status_run
  simp [h]

lemma update_run_nil (rc : Nat) (h : rc < MAX_RETRIES) :
    update_item_status_run [] rc = none := by
  unfold update_item_status_run
  simp [h]

lemma update_run_ok (rest : List OpAttempt) (rc : Nat)
    (h : rc < MAX_RETRIES) :
    update_item_status_run (.ok :: rest) rc = some (true, []) := by
  unfold update_item_status_run
  simp [h]

lemma update_run_failVal (rest : List OpAttempt) (rc : Nat)
    (h : rc < MAX_RETRIES) :
    update_item_status_run (.failVal :: rest) rc = some (false, []) := by
  unfold update_item_status_run
  simp [h]

lemma update_run_otherError (rest : List OpAttempt) (rc : Nat)
    (h : rc < MAX_RETRIES) :
    update_item_status_run (.otherError :: rest) rc = some (false, []) := by
  unfold update_item_status_run
  simp [h]

lemma update_run_rl (msg : String) (rest : List OpAttempt) (rc : Nat)
    (h : rc < MAX_RETRIES) (hm : isRateLimitedCode msg = true) :
    update_item_status_run (.transportError msg :: rest) rc =
      (update_item_status_run rest (rc + 1)).map
        fun p => (p.1, rc :: p.2) := by
  conv_lhs => unfold update_item_status_run
  simp only [if_pos h, handle_rate_limit_error, hm, if_true]
  cases update_item_status_run rest (rc + 1) <;> simp

lemma update_run_transport_fatal (msg : String) (rest : List OpAttempt)
    (rc : Nat) (h : rc < MAX_RETRIES) (hm : isRateLimitedCode msg = false) :
    update_item_status_run (.transportError msg :: rest) rc =
      some (false, []) := by
  conv_lhs => unfold update_item_status_run
  simp [h, handle_rate_limit_error, hm]

/-- `k` consecutive rate-limit failures wait with arguments
`rc, rc+1, …, rc+k-1` and leave the loop at counter `rc + k`. -/
lemma update_run_replicate (msg : String)
    (hmsg : isRateLimitedCode msg = true) :
    ∀ (k rc : Nat) (rest : List OpAttempt), rc + k ≤ MAX_RETRIES →
      update_item_status_run
          (List.replicate k (.transportError msg) ++ rest) rc =
        (update_item_status_run rest (rc + k)).map
          fun p => (p.1, (List.range k).map (rc + ·) ++ p.2) := by
  intro k
  induction k with
  | zero =>
    intro rc rest h
    simp only [List.replicate, List.nil_append, List.range_zero,
      List.map_nil, Nat.add_zero]
    cases update_item_status_run rest rc <;> simp
  | succ k ihk =>
    intro rc rest h
    have hrc : rc < MAX_RETRIES := by omega
    rw [List.replicate_succ, List.cons_append, update_run_rl msg _ rc hrc hmsg,
        ihk (rc + 1) rest (by omega)]
    have harith : rc + 1 + k = rc + (k + 1) := by omega
    have hlist : ∀ t : List Nat,
        rc :: ((List.range k).map (rc + 1 + ·) ++ t) =
          (List.range (k + 1)).map (rc + ·) ++ t := by
      intro t
      rw [List.range_succ_eq_map, List.map_cons, List.map_map]
      have : ((rc + ·) ∘ (· + 1)) = (rc + 1 + ·) := by
        funext i; simp [Function.comp]; omega
      rw [this]
      simp
    rw [harith]
    cases update_item_status_run rest (rc + (k + 1)) with
    | none => simp
    | some p => simp [hlist]

/-- Every backoff argument recorded by the `update_item_status` retry
loop stays below the retry ceiling. -/
lemma update_run_waitArgs_lt (attempts : List OpAttempt) :
    ∀ (rc : Nat) (out : Bool × List Nat),
      update_item_status_run attempts rc = some out →
      ∀ w ∈ out.2, w < MAX_RETRIES := by
  induction attempts with
  | nil =>
    intro rc out h w hw
    by_cases hrc : rc < MAX_RETRIES
    · rw [update_run_nil _ hrc] at h
      exact absurd h (by simp)
    · rw [update_run_ceiling _ _ hrc] at h
      cases h
      simp at hw
  | cons a rest ih =>
    intro rc out h w hw
    by_cases hrc : rc < MAX_RETRIES
    · cases a with
      | ok =>
        rw [update_run_ok _ _ hrc] at h
        cases h; simp at hw
      | failVal =>
        rw [update_run_failVal _ _ hrc] at h
        cases h; simp at hw
      | otherError =>
        rw [update_run_otherError _ _ hrc] at h
        cases h; simp at hw
      | transportError msg =>
        by_cases hm : isRateLimitedCode msg = true
        · rw [update_run_rl msg _ _ hrc hm] at h
          cases hrec : update_item_status_run rest (rc + 1) with
          | none => rw [hrec] at h; exact absurd h (by simp)
          | some p =>
            rw [hrec, Option.map_some'] at h
            cases h
            rcases List.mem_cons.mp hw with rfl | hw'
            · exact hrc
            · exact ih (rc + 1) p hrec w hw'
        · rw [update_run_transport_fatal msg _ _ hrc
              (by revert hm; cases isRateLimitedCode msg <;> simp)] at h
          cases h; simp at hw
    · rw [update_run_ceiling _ _ hrc] at h
      cases h; simp at hw

/-- The batch loop of `main` processes every item, whatever the
individual update outcomes. -/
lemma runBatch_length (b : List (List OpAttempt)) :
    (runBatch b).length = b.length := by
  induction b with
  | nil => rfl
  | cons a rest ih => simp [runBatch, ih]

/-- If the step function of the pagination loop waits, it waits with
argument 0. -/
lemma pageFetchStep_wait (s : LoopState) (r : PageResp) (s' : LoopState)
    (w : Option Nat) (h : pageFetchStep s r = .next s' w) :
    w = none ∨ w = some 0 := by
  cases r with
  | ok items hnp ec =>
    simp only [pageFetchStep] at h
    cases h
    exact Or.inl rfl
  | queryError m =>
    simp only [pageFetchStep] at h
    by_cases hm : isRateLimitMsg m = true
    · rw [if_pos hm] at h
      cases h
      exact Or.inr rfl
    · rw [if_neg hm] at h
      exact absurd h (by simp)

/-- Every backoff argument the pagination loop of `get_project_items`
ever passes to `wait_with_backoff` is 0. -/
lemma paginationLoop_waitArgs_zero (net : List PageResp) :
    ∀ (s : LoopState) (o : RunOut),
      paginationLoop net s = some o → ∀ w ∈ o.waitArgs, w = 0 := by
  induction net with
  | nil =>
    intro s o h w hw
    by_cases hs : s.has_next_page = false
    · rw [paginationLoop_stop _ _ hs] at h
      cases h; simp at hw
    · have hs' : s.has_next_page = true := by
        revert hs; cases s.has_next_page <;> simp
      rw [paginationLoop_nil _ hs'] at h
      exact absurd h (by simp)
  | cons r rs ih =>
    intro s o h w hw
    by_cases hs : s.has_next_page = false
    · rw [paginationLoop_stop _ _ hs] at h
      cases h; simp at hw
    · have hs' : s.has_next_page = true := by
        revert hs; cases s.has_next_page <;> simp
      rw [paginationLoop_cons _ _ _ hs'] at h
      cases hstep : pageFetchStep s r with
      | raised m =>
        rw [hstep] at h
        cases h; simp at hw
      | next s' wopt =>
        rw [hstep] at h
        replace h : (paginationLoop rs s').map
            (fun o => RunOut.mk o.result (o.requests + 1)
              (wopt.toList ++ o.waitArgs)) = some o := h
        cases hrec : paginationLoop rs s' with
        | none => rw [hrec] at h; exact absurd h (by simp)
        | some o' =>
          rw [hrec, Option.map_some'] at h
          cases h
          rcases pageFetchStep_wait s r s' wopt hstep with rfl | rfl
          · exact ih s' o' hrec w hw
          · rcases List.mem_cons.mp hw with rfl | hw'
            · rfl
            · exact ih s' o' hrec w hw'

/-- Counterexample to C5 as stated for the page-fetch operation: ten
consecutive rate-limit failures do NOT abandon the page fetch —
`get_project_items`'s loop issues an eleventh request and succeeds (it
has no retry ceiling at all). -/
theorem pagination_no_retry_ceiling :
    paginationLoop
        (List.replicate 10 (.queryError "rate limit exceeded") ++
          [.ok [] false none]) initLoopState =
      some ⟨.ok [], 11, List.replicate 10 0⟩ := by
  decide

/-- C5 (amended): after exactly `MAX_RETRIES` (10) consecutive
rate-limit failures the ITEM STATUS UPDATE operation is abandoned:
`update_item_status` returns `False` — a failure value, not a raised
error — after backoff waits with arguments 0..9; its recorded retry
counts never reach the ceiling; and the surrounding batch loop processes
every item regardless. (The page-fetch loop of `get_project_items`, by
contrast, has no retry ceiling; see the counterexample.) -/
theorem update_item_status_retry_ceiling (msg : String)
    (hmsg : isRateLimitedCode msg = true) (rest attempts : List OpAttempt)
    (rc : Nat) (out : Bool × List Nat)
    (hout : update_item_status_run attempts rc = some out)
    (itemBatch : List (List OpAttempt)) :
    update_item_status_run
        (List.replicate MAX_RETRIES (.transportError msg) ++ rest) 0 =
      some (false, List.range MAX_RETRIES) ∧
    (∀ w ∈ out.2, w < MAX_RETRIES) ∧
    (runBatch itemBatch).length = itemBatch.length := by
  refine ⟨?_, update_run_waitArgs_lt attempts rc out hout,
    runBatch_length itemBatch⟩
  rw [update_run_replicate msg hmsg MAX_RETRIES 0 rest (by omega),
      update_run_ceiling rest (0 + MAX_RETRIES) (by omega)]
  simp

/-- Witness for C5 at concrete inputs: ten `RATE_LIMITED` failures give
`False` with waits 0..9, and a two-item batch is fully processed. -/
theorem update_item_status_retry_ceiling_witness :
    update_item_status_run
        (List.replicate MAX_RETRIES
          (OpAttempt.transportError "RATE_LIMITED") ++ []) 0 =
      some (false, List.range MAX_RETRIES) ∧
    (runBatch [[OpAttempt.ok], [OpAttempt.failVal]]).length =
      [[OpAttempt.ok], [OpAttempt.failVal]].length :=
  ⟨(update_item_status_retry_ceiling "RATE_LIMITED" (by decide) []
      [OpAttempt.ok] 0 (true, []) (by decide)
      [[OpAttempt.ok], [OpAttempt.failVal]]).1,
   (update_item_status_retry_ceiling "RATE_LIMITED" (by decide) []
      [OpAttempt.ok] 0 (true, []) (by decide)
      [[OpAttempt.ok], [OpAttempt.failVal]]).2.2⟩

/-- `k` consecutive rate-limit errors in `migrate_issues` wait with
arguments `attempt+1, …, attempt+k` and leave the counter at
`attempt + k`. -/
lemma migrate_loop_replicate :
    ∀ (k attempt : Nat) (rest : List MigAttempt),
      migrate_loop (List.replicate k .exnRate ++ rest) attempt =
        ((migrate_loop rest (attempt + k)).1,
          (List.range k).map (fun i => attempt + i + 1) ++
            (migrate_loop rest (attempt + k)).2) := by
  intro k
  induction k with
  | zero =>
    intro attempt rest
    simp
  | succ k ihk =>
    intro attempt rest
    rw [List.replicate_succ, List.cons_append]
    show ((migrate_loop (List.replicate k .exnRate ++ rest) (attempt + 1)).1,
        (attempt + 1) ::
          (migrate_loop (List.replicate k .exnRate ++ rest) (attempt + 1)).2) = _
    rw [ihk (attempt + 1) rest]
    have harith : attempt + 1 + k = attempt + (k + 1) := by omega
    rw [harith]
    have hlist :
        (attempt + 1) :: (List.range k).map (fun i => attempt + 1 + i + 1) =
          (List.range (k + 1)).map (fun i => attempt + i + 1) := by
      rw [List.range_succ_eq_map, List.map_cons, List.map_map]
      have : ((fun i => attempt + i + 1) ∘ (· + 1)) =
          (fun i => attempt + 1 + i + 1) := by
        funext i
        simp only [Function.comp_apply]
        omega
      rw [this]
    simp [← hlist]

/-- Counterexample to C6 as stated: in the pagination loop of
`get_project_items`, two consecutive rate-limit errors both invoke the
backoff with attempt 0 — the counter passed is never incremented. -/
theorem pagination_backoff_arg_never_incremented :
    (paginationLoop
        [.queryError "rate limit exceeded",
         .queryError "rate limit exceeded", .ok [] false none]
        initLoopState).map RunOut.waitArgs = some [0, 0] ∧
    ([0, 0] : List Nat) ≠ [0, 1] := by
  decide

/-- C6 (amended): in the retry loops of `update_item_status` and
`migrate_issues` the attempt counter passed to the backoff wait is
incremented by one on each consecutive rate-limit error and reset to
zero after a successful request; in the pagination loop of
`get_project_items`, however, the backoff is always invoked with
attempt 0. -/
theorem retry_counter_behavior (msg : String)
    (hmsg : isRateLimitedCode msg = true) (k j : Nat)
    (hk : k < MAX_RETRIES) (net : List PageResp) (s : LoopState)
    (o : RunOut) (hrun : paginationLoop net s = some o) :
    update_item_status_run
        (List.replicate k (.transportError msg) ++ [.ok]) 0 =
      some (true, List.range k) ∧
    migrate_loop
        (List.replicate k .exnRate ++
          .created :: List.replicate j .exnRate) 0 =
      (.ok (), (List.range k).map (· + 1) ++ (List.range j).map (· + 1)) ∧
    (∀ w ∈ o.waitArgs, w = 0) := by
  refine ⟨?_, ?_, paginationLoop_waitArgs_zero net s o hrun⟩
  · rw [update_run_replicate msg hmsg k 0 [.ok] (by omega),
        update_run_ok [] (0 + k) (by omega)]
    simp
  · rw [migrate_loop_replicate k 0 (.created :: List.replicate j .exnRate)]
    show ((migrate_loop (List.replicate j .exnRate) 0).1,
        (List.range k).map (fun i => 0 + i + 1) ++
          (migrate_loop (List.replicate j .exnRate) 0).2) = _
    rw [show (List.replicate j MigAttempt.exnRate : List MigAttempt) =
          List.replicate j MigAttempt.exnRate ++ [] by simp,
        migrate_loop_replicate j 0 []]
    simp [migrate_loop]

/-- Witness for C6 at concrete inputs: two consecutive `RATE_LIMITED`
failures in `update_item_status` wait with arguments 0 then 1, and in
`migrate_issues` two rate-limit errors, a success, then one more error
wait with arguments 1, 2, then 1 again (reset by the success). -/
theorem retry_counter_behavior_witness :
    update_item_status_run
        (List.replicate 2 (OpAttempt.transportError "RATE_LIMITED") ++
          [OpAttempt.ok]) 0 = some (true, [0, 1]) ∧
    migrate_loop
        (List.replicate 2 MigAttempt.exnRate ++
          MigAttempt.created :: List.replicate 1 MigAttempt.exnRate) 0 =
      (.ok (), [1, 2, 1]) := by
  have h := retry_counter_behavior "RATE_LIMITED" (by decide) 2 1 (by decide)
    [PageResp.ok [] false none] initLoopState ⟨.ok [], 1, []⟩ (by decide)
  refine ⟨?_, ?_⟩
  · rw [h.1]
    decide
  · rw [h.2.1]
    decide

end NexaGithub
